import Mathlib

/-!
Verification of the producer/consumer parallel blob-processing pipeline of
`parallel_change_blob_access_tier.py` and `parallel_delete_blobs.py`
(microsoft/ai4eutils), as a shallow embedding.

Conventions of the embedding:
* the input file is a list of raw lines (Python iterates lines of the file);
* Python `str.strip` is modelled by `py_strip` (drop whitespace at both ends);
* the remote blob service is modelled per blob by `RemoteBlob` (presence plus
  the properties the scripts read), and fault injection for the three SDK
  calls the scripts issue is modelled by `RemoteFaults`;
* a per-item operation returns an `OpResult`: the post state of the blob, the
  list of printed lines, the number of read-only property fetches, the number
  of mutating SDK calls issued, and the exception it propagates (if any).
-/

/-- Models Python `str.strip()`: remove whitespace from both ends. -/
def py_strip (s : String) : String :=
  String.mk (((s.data.dropWhile Char.isWhitespace).reverse.dropWhile Char.isWhitespace).reverse)

/-- Helper for `py_in`: does `needle` occur as a contiguous sublist of `hay`? -/
def py_contains (hay needle : List Char) : Bool :=
  match hay with
  | [] => needle.isEmpty
  | _ :: t => needle.isPrefixOf hay || py_contains t needle

/-- Models the Python expression `needle in hay` on strings (substring test). -/
def py_in (needle hay : String) : Bool :=
  py_contains hay.data needle.data

/-! ## Producer (`producer_func`, identical in both scripts) -/

/-- The module-level configuration read by `producer_func`:
`blobs_to_skip`, `debug_max_files` (negative disables the debug cap, as the
source comment `Set to -1 to process all files` says) and
`producer_block_size`. -/
structure ProdConfig where
  blobs_to_skip : Nat
  debug_max_files : Int
  producer_block_size : Nat
deriving DecidableEq

/-- What the producer emits: the successive arguments of `q.put` (one final,
possibly partial, block is always put at termination) and the successive
arguments of `cnt.increment` (issued only when a block fills). -/
structure ProducerOut where
  puts : List (List String)
  incs : List Nat
deriving DecidableEq

/-- `n_lines` of `producer_func`: the line index, shifted by `blobs_to_skip`
when the latter is positive; only consulted by the debug-cap test. -/
def debug_count (cfg : ProdConfig) (i : Nat) : Int :=
  if 0 < cfg.blobs_to_skip then (i : Int) - (cfg.blobs_to_skip : Int) else (i : Int)

/-- The loop body of `producer_func`, line by line: skip the first
`blobs_to_skip` lines, strip, drop blank lines, honour the debug cap, append
to the current block, and push (incrementing the counter first) each time the
block reaches `producer_block_size`; at end of input, push the final partial
block without incrementing the counter. -/
def producer_go (cfg : ProdConfig) : List String → Nat → List String → ProducerOut
  | [], _, cur => ⟨[cur], []⟩
  | l :: rest, i, cur =>
    if 0 < cfg.blobs_to_skip ∧ i < cfg.blobs_to_skip then
      producer_go cfg rest (i + 1) cur
    else if (py_strip l).length = 0 then
      producer_go cfg rest (i + 1) cur
    else if 0 < cfg.debug_max_files ∧ cfg.debug_max_files ≤ debug_count cfg i then
      ⟨[cur], []⟩
    else if (cur ++ [py_strip l]).length = cfg.producer_block_size then
      ⟨(cur ++ [py_strip l]) :: (producer_go cfg rest (i + 1) []).puts,
       (cur ++ [py_strip l]).length :: (producer_go cfg rest (i + 1) []).incs⟩
    else
      producer_go cfg rest (i + 1) (cur ++ [py_strip l])

/-- `producer_func`, applied to the list of raw lines of the input file. -/
def producer_func (cfg : ProdConfig) (lines : List String) : ProducerOut :=
  producer_go cfg lines 0 []

/-- The lines that survive stripping and the blank-line filter. -/
def keptLines (lines : List String) : List String :=
  (lines.map py_strip).filter (fun s => !(s.length == 0))

/-- The items the producer keeps: non-blank stripped lines among the lines
whose index is at least the skip count. -/
def kept_after_skip (skip : Nat) (lines : List String) : List String :=
  keptLines (lines.drop skip)

/-- Number of non-blank (after stripping) lines of the file, the quantity the
spec measures dispatch against. -/
def non_blank_count (lines : List String) : Nat :=
  (keptLines lines).length

/-- Reference chunking function: what the producer does to the filtered item
stream, starting from the accumulated block `cur`. -/
def chunkAcc (B : Nat) : List String → List String → ProducerOut
  | [], cur => ⟨[cur], []⟩
  | x :: xs, cur =>
    if (cur ++ [x]).length = B then
      ⟨(cur ++ [x]) :: (chunkAcc B xs []).puts,
       (cur ++ [x]).length :: (chunkAcc B xs []).incs⟩
    else
      chunkAcc B xs (cur ++ [x])

/-! ## Shared progress counter (`Counter`) -/

/-- The print threshold `n_print = 5000` of both scripts. -/
def n_print : Int := 5000

/-- 2^31: one past the largest value a 32-bit signed C int holds. -/
def c_int32_bound : Int := 2147483648

/-- 2^32: the modulus of a 32-bit C int store. -/
def c_int32_size : Int := 4294967296

/-- Storing an integer into a `multiprocessing.Value` of typecode i (a
32-bit signed C int): ctypes does no overflow checking, the value silently
wraps into the range from -2^31 up to (but excluding) 2^31. -/
def c_int_wrap (x : Int) : Int :=
  (x + c_int32_bound) % c_int32_size - c_int32_bound

/-- `Counter`: shared value, optional total, and the value at the last
progress print. Each field lives in a `multiprocessing.Value` of typecode i
(a 32-bit signed C int), so every store goes through `c_int_wrap`. -/
structure Counter where
  val : Int
  total : Int
  last_print : Int
deriving DecidableEq

/-- `Counter.increment(n)`: `val.value += n` stores the sum into the 32-bit
C int, silently wrapping; then, when the (possibly wrapped) value has
advanced by at least `n_print` since the last print, record the new print
point and emit a progress line (the Bool). The `last_print` store receives
the already-wrapped `val`, so no further wrap applies to it. -/
def Counter.increment (c : Counter) (n : Int) : Counter × Bool :=
  if n_print ≤ c_int_wrap (c.val + n) - c.last_print then
    (⟨c_int_wrap (c.val + n), c.total, c_int_wrap (c.val + n)⟩, true)
  else
    (⟨c_int_wrap (c.val + n), c.total, c.last_print⟩, false)

/-- `pinit(Counter(-1))`: the counter as initialised by both scripts. -/
def counter0 : Counter := ⟨0, -1, 0⟩

/-- Run the counter over the increments the producer issued. -/
def counter_run (c : Counter) : List Nat → Counter
  | [] => c
  | n :: ns => counter_run (c.increment (n : Int)).1 ns

/-! ## Bounded queue (`Queue(max_queue_size)` / `JoinableQueue(max_queue_size)`) -/

/-- `max_queue_size = n_threads*4` (in blocks, not items), as set in both
scripts from the worker count. -/
def max_queue_size (n_threads : Nat) : Nat := n_threads * 4

/-- Number of consumer workers started by both scripts. -/
def n_threads : Nat := 100

/-- Reachable queue occupancies (in blocks) of a bounded blocking queue of
capacity `cap`: a `put` completes only when a slot is free (the producer
suspends otherwise), a `get` only when a block is queued (consumers suspend
otherwise). -/
inductive QueueReachable (cap : Nat) : Nat → Prop
  | init : QueueReachable cap 0
  | put {n : Nat} : QueueReachable cap n → n < cap → QueueReachable cap (n + 1)
  | get {n : Nat} : QueueReachable cap n → 0 < n → QueueReachable cap (n - 1)

/-! ## Run orchestration (`parallel_set_access_tier*`, `parallel_delete_blobs*`) -/

/-- Events of the orchestration functions that matter to claim C5. -/
inductive RunEv where
  | producerCreated
  | workerCreated
  | abortedFileNotFound
deriving DecidableEq

/-- `parallel_set_access_tier_threads`: asserts `os.path.isfile(input_file)`
before the queue, the producer thread and the `n` consumer threads are
created. -/
def parallel_set_access_tier_threads (isfile : Bool) (n : Nat) : List RunEv :=
  if isfile then RunEv.producerCreated :: List.replicate n RunEv.workerCreated
  else [RunEv.abortedFileNotFound]

/-- `parallel_set_access_tier_processes`: same file assertion before creating
the producer thread and the `n` consumer processes. -/
def parallel_set_access_tier_processes (isfile : Bool) (n : Nat) : List RunEv :=
  if isfile then RunEv.producerCreated :: List.replicate n RunEv.workerCreated
  else [RunEv.abortedFileNotFound]

/-- `parallel_set_access_tier`: asserts the file exists, then dispatches on
`use_threads`. -/
def parallel_set_access_tier (isfile use_threads : Bool) (n : Nat) : List RunEv :=
  if isfile then
    if use_threads then parallel_set_access_tier_threads isfile n
    else parallel_set_access_tier_processes isfile n
  else [RunEv.abortedFileNotFound]

/-- Outcome of the delete-blobs orchestration: the creation events, plus
whether the producer thread raised `FileNotFoundError` when it opened the
input file. -/
structure DelRunOut where
  events : List RunEv
  producer_file_error : Bool
deriving DecidableEq

/-- `parallel_delete_blobs_threads`: no file check — the producer thread and
the `n` consumer threads are created unconditionally; a missing input file
only surfaces inside the producer thread when `open` fails. -/
def parallel_delete_blobs_threads (isfile : Bool) (n : Nat) : DelRunOut :=
  ⟨RunEv.producerCreated :: List.replicate n RunEv.workerCreated, !isfile⟩

/-- `parallel_delete_blobs_processes`: same, with consumer processes. -/
def parallel_delete_blobs_processes (isfile : Bool) (n : Nat) : DelRunOut :=
  ⟨RunEv.producerCreated :: List.replicate n RunEv.workerCreated, !isfile⟩

/-- `parallel_delete_blobs`: no file check either; dispatches on
`use_threads`. -/
def parallel_delete_blobs (isfile use_threads : Bool) (n : Nat) : DelRunOut :=
  if use_threads then parallel_delete_blobs_threads isfile n
  else parallel_delete_blobs_processes isfile n

/-! ## Remote blob model and the per-item operations -/

/-- `valid_tiers = set(['Hot','Cool','Archive'])` (case-sensitive). -/
def valid_tiers : List String := ["Hot", "Cool", "Archive"]

/-- The blob properties the scripts read: `blob_tier` (None on GPv1
accounts), `tier_inferred`, and `archive_status`. -/
structure BlobProps where
  blob_tier : Option String
  tier_inferred : Bool
  archive_status : String
deriving DecidableEq

/-- Remote state of one blob: whether it exists, and its properties. -/
structure RemoteBlob where
  present : Bool
  props : BlobProps
deriving DecidableEq

/-- The exceptions the SDK calls can raise in the model. -/
inductive PyExc where
  | resourceNotFound
  | assertionError (msg : String)
  | httpError (msg : String)
deriving DecidableEq

/-- Python `str(e)` for the modelled exceptions. -/
def pyStr : PyExc → String
  | .resourceNotFound => "ResourceNotFoundError"
  | .assertionError m => m
  | .httpError m => m

/-- Fault injection for the three SDK calls the scripts issue: an injected
exception, if any, for every property fetch, tier change, and delete. -/
structure RemoteFaults where
  getPropsExc : Option PyExc
  setTierExc : Option PyExc
  deleteExc : Option PyExc
deriving DecidableEq

/-- `blob_client.get_blob_properties()`: an injected fault raises; otherwise
an absent blob raises `ResourceNotFoundError` and a present blob returns its
properties. -/
def get_blob_properties (f : RemoteFaults) (b : RemoteBlob) : Except PyExc BlobProps :=
  match f.getPropsExc with
  | some e => .error e
  | none => if b.present then .ok b.props else .error .resourceNotFound

/-- `blob_exists`: fetch the properties, catching only
`ResourceNotFoundError`; any other exception propagates to the caller. -/
def blob_exists (f : RemoteFaults) (b : RemoteBlob) : Except PyExc Bool :=
  match get_blob_properties f b with
  | .ok _ => .ok true
  | .error .resourceNotFound => .ok false
  | .error e => .error e

/-- `container_client.set_standard_blob_tier_blobs(tier, path)`: on success
the blob is at `tier` and the tier is no longer inferred; an absent blob
fails with a BlobNotFound service error. -/
def set_standard_blob_tier_blobs (f : RemoteFaults) (b : RemoteBlob) (tier : String) :
    Except PyExc RemoteBlob :=
  match f.setTierExc with
  | some e => .error e
  | none =>
    if b.present then .ok ⟨true, ⟨some tier, false, b.props.archive_status⟩⟩
    else .error (.httpError "BlobNotFound")

/-- `blob_client.delete_blob()`: on success the blob is gone; an absent blob
fails with a BlobNotFound service error. -/
def sdk_delete_blob (f : RemoteFaults) (b : RemoteBlob) : Except PyExc RemoteBlob :=
  match f.deleteExc with
  | some e => .error e
  | none =>
    if b.present then .ok ⟨false, b.props⟩
    else .error (.httpError "BlobNotFound")

/-- Result of one per-item operation: post state of the blob, printed lines,
read-only property fetches performed, mutating SDK calls issued, and the
exception the operation propagates to its caller (none = returned). -/
structure OpResult where
  state : RemoteBlob
  logs : List String
  reads : Nat
  mutations : Nat
  raised : Option PyExc
deriving DecidableEq

/-- The `Skipping {}, already at tier {}` line. -/
def skip_line (blob_path access_tier : String) : String :=
  "Skipping " ++ blob_path ++ ", already at tier " ++ access_tier

/-- The `Error verifying access tier for {}: {}` line. -/
def err_verify_line (blob_path msg : String) : String :=
  "Error verifying access tier for " ++ blob_path ++ ": " ++ msg

/-- Message of the `assert tier is not None` failure. -/
def assert_tier_none_msg : String :=
  "Error retrieving blob tier; is this a GPv1 storage account?"

/-- Message of the `assert tier in valid_tiers` failure. -/
def assert_tier_invalid_msg (tier blob_path : String) : String :=
  "Unrecognized tier " ++ tier ++ " for " ++ blob_path

/-- The module-level flags read by `set_access_tier`. -/
structure TierConfig where
  verbose : Bool
  execute_changes : Bool
  force_tier_on_inferred_blobs : Bool
  verify_existence : Bool
  verify_access_tier : Bool
deriving DecidableEq

/-- Lines printed by the `except` branch of the execution `try` of
`set_access_tier` (only under `verbose`, distinguishing BlobNotFound). -/
def sat_except_logs (cfg : TierConfig) (blob_path access_tier : String) (e : PyExc) :
    List String :=
  if cfg.verbose then
    if py_in "BlobNotFound" (pyStr e) then [blob_path ++ " does not exist"]
    else ["Error setting " ++ blob_path ++ " to " ++ access_tier ++ ": " ++ pyStr e]
  else []

/-- The tier-setting call of `set_access_tier` with its surrounding
`try/except`, the optional `verbose` print, and the rehydration check
(`archProps` holds the properties prefetched when the target is Archive). -/
def set_access_tier_do_set (cfg : TierConfig) (f : RemoteFaults) (b : RemoteBlob)
    (blob_path access_tier : String) (archProps : Option BlobProps)
    (logs0 : List String) (reads0 : Nat) : OpResult :=
  match set_standard_blob_tier_blobs f b access_tier with
  | .error e =>
    ⟨b,
      (if cfg.verbose then logs0 ++ ["Setting " ++ blob_path ++ " to " ++ access_tier]
       else logs0) ++ sat_except_logs cfg blob_path access_tier e,
      reads0, 1, none⟩
  | .ok b2 =>
    ⟨b2,
      (if cfg.verbose then logs0 ++ ["Setting " ++ blob_path ++ " to " ++ access_tier]
       else logs0) ++
        (match archProps with
         | some props =>
           if props.blob_tier = some "Archive" then
             if py_in "rehydrate-pending" props.archive_status then []
             else ["Error: blob " ++ blob_path ++ " not re-hydrating"]
           else []
         | none => []),
      reads0, 1, none⟩

/-- The execution `try` of `set_access_tier`: when the target is Archive,
prefetch the properties (an exception here is caught by the same `except`),
then issue the tier change. -/
def set_access_tier_execute (cfg : TierConfig) (f : RemoteFaults) (b : RemoteBlob)
    (blob_path access_tier : String) (logs0 : List String) (reads0 : Nat) : OpResult :=
  if access_tier = "Archive" then
    match get_blob_properties f b with
    | .error e =>
      ⟨b, logs0 ++ sat_except_logs cfg blob_path access_tier e, reads0 + 1, 0, none⟩
    | .ok props =>
      set_access_tier_do_set cfg f b blob_path access_tier (some props) logs0 (reads0 + 1)
  else
    set_access_tier_do_set cfg f b blob_path access_tier none logs0 reads0

/-- The `if not execute_changes` gate of `set_access_tier`. -/
def set_access_tier_gate (cfg : TierConfig) (f : RemoteFaults) (b : RemoteBlob)
    (blob_path access_tier : String) (logs0 : List String) (reads0 : Nat) : OpResult :=
  if cfg.execute_changes then
    set_access_tier_execute cfg f b blob_path access_tier logs0 reads0
  else
    ⟨b,
      (if cfg.verbose then logs0 ++ ["Debug: not setting " ++ blob_path ++ " to " ++ access_tier]
       else logs0),
      reads0, 0, none⟩

/-- The `verify_access_tier` block of `set_access_tier`: fetch the
properties inside `try/except Exception` (assertion failures about a missing
or unrecognised tier are caught there too and fall through to execution);
when the blob is already at the requested tier and tier forcing does not
apply, print the skip line and return. -/
def set_access_tier_verify (cfg : TierConfig) (f : RemoteFaults) (b : RemoteBlob)
    (blob_path access_tier : String) (logs0 : List String) (reads0 : Nat) : OpResult :=
  if cfg.verify_access_tier then
    match get_blob_properties f b with
    | .error e =>
      set_access_tier_gate cfg f b blob_path access_tier
        (logs0 ++ [err_verify_line blob_path (pyStr e)]) (reads0 + 1)
    | .ok props =>
      match props.blob_tier with
      | none =>
        set_access_tier_gate cfg f b blob_path access_tier
          (logs0 ++ [err_verify_line blob_path assert_tier_none_msg]) (reads0 + 1)
      | some t =>
        if t ∈ valid_tiers then
          if t = access_tier then
            if cfg.force_tier_on_inferred_blobs && props.tier_inferred then
              set_access_tier_gate cfg f b blob_path access_tier logs0 (reads0 + 1)
            else
              ⟨b, logs0 ++ [skip_line blob_path access_tier], reads0 + 1, 0, none⟩
          else
            set_access_tier_gate cfg f b blob_path access_tier logs0 (reads0 + 1)
        else
          set_access_tier_gate cfg f b blob_path access_tier
            (logs0 ++ [err_verify_line blob_path (assert_tier_invalid_msg t blob_path)])
            (reads0 + 1)
  else
    set_access_tier_gate cfg f b blob_path access_tier logs0 reads0

/-- `set_access_tier`: the leading `assert access_tier in valid_tiers`
propagates an `AssertionError`; then the optional existence check (whose
non-not-found exceptions propagate, since `blob_exists` is not inside any
`try`), then the verification block, the dry-run gate and the execution. -/
def set_access_tier (cfg : TierConfig) (f : RemoteFaults) (b : RemoteBlob)
    (blob_path access_tier : String) : OpResult :=
  if access_tier ∈ valid_tiers then
    if cfg.verify_existence then
      match blob_exists f b with
      | .error e => ⟨b, [], 1, 0, some e⟩
      | .ok false => ⟨b, ["Warning: " ++ blob_path ++ " does not exist"], 1, 0, none⟩
      | .ok true => set_access_tier_verify cfg f b blob_path access_tier [] 1
    else
      set_access_tier_verify cfg f b blob_path access_tier [] 0
  else
    ⟨b, [], 0, 0, some (.assertionError "access_tier not in valid_tiers")⟩

/-- The module-level flags read by `delete_blob`. -/
structure DelConfig where
  verbose : Bool
  execute_deletions : Bool
  verify_existence : Bool
deriving DecidableEq

/-- The body of `delete_blob` after the existence check: the dry-run gate,
then the delete call inside `try/except Exception` (all failures caught,
logged only under `verbose`). -/
def delete_blob_body (cfg : DelConfig) (f : RemoteFaults) (b : RemoteBlob)
    (blob_path : String) (logs0 : List String) (reads0 : Nat) : OpResult :=
  if cfg.execute_deletions then
    match sdk_delete_blob f b with
    | .error e =>
      ⟨b,
        (if cfg.verbose then logs0 ++ ["Deleting " ++ blob_path] else logs0) ++
          (if cfg.verbose then
            (if py_in "BlobNotFound" (pyStr e) then [blob_path ++ " does not exist"]
             else ["Error deleting " ++ blob_path ++ ": " ++ pyStr e])
           else []),
        reads0, 1, none⟩
    | .ok b2 =>
      ⟨b2, (if cfg.verbose then logs0 ++ ["Deleting " ++ blob_path] else logs0),
        reads0, 1, none⟩
  else
    ⟨b, (if cfg.verbose then logs0 ++ ["Not deleting " ++ blob_path] else logs0),
      reads0, 0, none⟩

/-- `delete_blob`: the optional existence check (whose non-not-found
exceptions propagate, `blob_exists` not being inside any `try`), then the
dry-run gate and the guarded delete call. -/
def delete_blob (cfg : DelConfig) (f : RemoteFaults) (b : RemoteBlob)
    (blob_path : String) : OpResult :=
  if cfg.verify_existence then
    match blob_exists f b with
    | .error e => ⟨b, [], 1, 0, some e⟩
    | .ok false => ⟨b, ["Warning: " ++ blob_path ++ " does not exist"], 1, 0, none⟩
    | .ok true => delete_blob_body cfg f b blob_path [] 1
  else
    delete_blob_body cfg f b blob_path [] 0

/-! ## Consumer loop bodies (`consumer_func` of both scripts) -/

/-- What happened while a consumer handled one dequeued block: per-item calls
that returned, `task_done` calls issued, and whether the worker loop was
killed by an uncaught exception. -/
structure BlockRun where
  items_processed : Nat
  task_done_calls : Nat
  crashed : Bool
deriving DecidableEq

/-- One iteration of `consumer_func` of `parallel_delete_blobs.py` on a
dequeued block: the per-item calls run outside any `try`, so a propagated
exception kills the worker before `q.task_done()`; otherwise every item is
processed and `task_done` is called once. `op` gives the exception each
per-item call propagates, if any. -/
def delete_consumer_block_go (op : String → Option PyExc) : List String → Nat → BlockRun
  | [], k => ⟨k, 1, false⟩
  | x :: xs, k =>
    match op x with
    | none => delete_consumer_block_go op xs (k + 1)
    | some _ => ⟨k, 0, true⟩

/-- One iteration of the delete-blobs consumer, starting from an empty
tally. -/
def delete_consumer_block (op : String → Option PyExc) (block : List String) : BlockRun :=
  delete_consumer_block_go op block 0

/-- One iteration of `consumer_func` of
`parallel_change_blob_access_tier.py`: the whole per-block loop sits inside
`try/except Exception`, so a propagated per-item exception aborts the rest of
the block but `q.task_done()` is still called once. -/
def tier_consumer_block_go (op : String → Option PyExc) : List String → Nat → BlockRun
  | [], k => ⟨k, 1, false⟩
  | x :: xs, k =>
    match op x with
    | none => tier_consumer_block_go op xs (k + 1)
    | some _ => ⟨k, 1, false⟩

/-- One iteration of the tier-change consumer, starting from an empty
tally. -/
def tier_consumer_block (op : String → Option PyExc) (block : List String) : BlockRun :=
  tier_consumer_block_go op block 0

/-! ## Helper lemmas about the producer -/

theorem chunkAcc_puts_join (B : Nat) :
    ∀ (xs cur : List String), (chunkAcc B xs cur).puts.flatten = cur ++ xs := by
  intro xs
  induction xs with
  | nil => intro cur; simp [chunkAcc]
  | cons x xs ih =>
    intro cur
    by_cases h : cur.length + 1 = B
    · simp [chunkAcc, h, ih, List.append_assoc]
    · simp [chunkAcc, h, ih, List.append_assoc]

theorem chunkAcc_map_length (B : Nat) (hB : 0 < B) :
    ∀ (xs cur : List String), cur.length < B →
      (chunkAcc B xs cur).puts.map List.length =
        List.replicate ((cur.length + xs.length) / B) B ++ [(cur.length + xs.length) % B] := by
  intro xs
  induction xs with
  | nil =>
    intro cur hcur
    simp [chunkAcc, Nat.div_eq_of_lt hcur, Nat.mod_eq_of_lt hcur]
  | cons x xs ih =>
    intro cur hcur
    have hx : (cur ++ [x]).length = cur.length + 1 := by simp
    by_cases h : (cur ++ [x]).length = B
    · have htot : cur.length + (x :: xs).length = xs.length + B := by
        simp only [List.length_cons]; omega
      simp only [chunkAcc, if_pos h]
      simp only [List.map_cons, h]
      rw [ih [] (by simpa using hB)]
      simp only [List.length_nil, Nat.zero_add, htot]
      rw [Nat.add_div_right _ hB, Nat.add_mod_right]
      simp [List.replicate_succ]
    · have hcur2 : (cur ++ [x]).length < B := by omega
      simp only [chunkAcc, if_neg h]
      rw [ih (cur ++ [x]) hcur2]
      have htot : (cur ++ [x]).length + xs.length = cur.length + (x :: xs).length := by
        simp only [List.length_cons, hx]; omega
      rw [htot]

theorem chunkAcc_incs (B : Nat) (hB : 0 < B) :
    ∀ (xs cur : List String), cur.length < B →
      (chunkAcc B xs cur).incs = List.replicate ((cur.length + xs.length) / B) B := by
  intro xs
  induction xs with
  | nil =>
    intro cur hcur
    simp [chunkAcc, Nat.div_eq_of_lt hcur]
  | cons x xs ih =>
    intro cur hcur
    have hx : (cur ++ [x]).length = cur.length + 1 := by simp
    by_cases h : (cur ++ [x]).length = B
    · have htot : cur.length + (x :: xs).length = xs.length + B := by
        simp only [List.length_cons]; omega
      simp only [chunkAcc, if_pos h]
      rw [ih [] (by simpa using hB)]
      simp only [List.length_nil, Nat.zero_add, htot, h]
      rw [Nat.add_div_right _ hB]
      simp [List.replicate_succ]
    · have hcur2 : (cur ++ [x]).length < B := by omega
      simp only [chunkAcc, if_neg h]
      rw [ih (cur ++ [x]) hcur2]
      have htot : (cur ++ [x]).length + xs.length = cur.length + (x :: xs).length := by
        simp only [List.length_cons, hx]; omega
      rw [htot]

theorem producer_go_eq_chunkAcc (cfg : ProdConfig) (hdbg : cfg.debug_max_files ≤ 0) :
    ∀ (lines : List String) (i : Nat) (cur : List String),
      producer_go cfg lines i cur =
        chunkAcc cfg.producer_block_size
          (keptLines (lines.drop (cfg.blobs_to_skip - i))) cur := by
  intro lines
  induction lines with
  | nil => intro i cur; simp [producer_go, keptLines, chunkAcc]
  | cons l rest ih =>
    intro i cur
    by_cases hskip : 0 < cfg.blobs_to_skip ∧ i < cfg.blobs_to_skip
    · have h1 : cfg.blobs_to_skip - i = (cfg.blobs_to_skip - (i + 1)) + 1 := by omega
      simp only [producer_go, if_pos hskip]
      rw [ih (i + 1), h1, List.drop_succ_cons]
    · have h0 : cfg.blobs_to_skip - i = 0 := by omega
      have h0' : cfg.blobs_to_skip - (i + 1) = 0 := by omega
      simp only [producer_go, if_neg hskip]
      rw [h0, List.drop_zero]
      by_cases hblank : (py_strip l).length = 0
      · rw [if_pos hblank, ih (i + 1), h0', List.drop_zero]
        have hk : keptLines (l :: rest) = keptLines rest := by
          simp [keptLines, hblank]
        rw [hk]
      · rw [if_neg hblank]
        have hdbg2 : ¬(0 < cfg.debug_max_files ∧ cfg.debug_max_files ≤ debug_count cfg i) := by
          intro hc
          obtain ⟨hc1, _⟩ := hc
          omega
        rw [if_neg hdbg2]
        have hk : keptLines (l :: rest) = py_strip l :: keptLines rest := by
          simp [keptLines, hblank]
        rw [hk]
        by_cases hfull : (cur ++ [py_strip l]).length = cfg.producer_block_size
        · rw [if_pos hfull, ih (i + 1), h0', List.drop_zero]
          simp only [chunkAcc, if_pos hfull]
        · rw [if_neg hfull, ih (i + 1), h0', List.drop_zero]
          simp only [chunkAcc, if_neg hfull]

theorem producer_func_puts_join (skip B : Nat) (lines : List String) :
    (producer_func ⟨skip, -1, B⟩ lines).puts.flatten = kept_after_skip skip lines := by
  rw [producer_func, producer_go_eq_chunkAcc _ (by norm_num) lines 0 []]
  simp [kept_after_skip, chunkAcc_puts_join]

theorem producer_func_map_length (skip B : Nat) (hB : 0 < B) (lines : List String) :
    (producer_func ⟨skip, -1, B⟩ lines).puts.map List.length =
      List.replicate ((kept_after_skip skip lines).length / B) B ++
        [(kept_after_skip skip lines).length % B] := by
  rw [producer_func, producer_go_eq_chunkAcc _ (by norm_num) lines 0 []]
  have h := chunkAcc_map_length B hB (keptLines (lines.drop (skip - 0))) [] (by simpa using hB)
  simpa [kept_after_skip] using h

theorem producer_func_incs (skip B : Nat) (hB : 0 < B) (lines : List String) :
    (producer_func ⟨skip, -1, B⟩ lines).incs =
      List.replicate ((kept_after_skip skip lines).length / B) B := by
  rw [producer_func, producer_go_eq_chunkAcc _ (by norm_num) lines 0 []]
  have h := chunkAcc_incs B hB (keptLines (lines.drop (skip - 0))) [] (by simpa using hB)
  simpa [kept_after_skip] using h

/-! ## Helper lemmas about the counter -/

theorem Counter.increment_val (c : Counter) (n : Int) :
    (c.increment n).1.val = c_int_wrap (c.val + n) := by
  rw [Counter.increment]
  split <;> rfl

theorem c_int_wrap_eq_self (x : Int) (h1 : -c_int32_bound ≤ x) (h2 : x < c_int32_bound) :
    c_int_wrap x = x := by
  have h3 : (0 : Int) ≤ x + c_int32_bound := by omega
  have h4 : x + c_int32_bound < c_int32_size := by
    simp only [c_int32_bound, c_int32_size] at h2 ⊢
    omega
  simp only [c_int_wrap]
  rw [Int.emod_eq_of_lt h3 h4]
  omega

/-- The model does wrap where the C int store wraps: one past the maximum
lands at the minimum. -/
theorem c_int_wrap_overflow : c_int_wrap c_int32_bound = -c_int32_bound := by decide

theorem counter_run_val_no_wrap : ∀ (ns : List Nat) (c : Counter),
    0 ≤ c.val → c.val + (ns.sum : Int) < c_int32_bound →
    (counter_run c ns).val = c.val + (ns.sum : Int) := by
  intro ns
  induction ns with
  | nil => intro c _ _; simp [counter_run]
  | cons n ns ih =>
    intro c hc0 hno
    have hbpos : (0 : Int) < c_int32_bound := by norm_num [c_int32_bound]
    have hsum : (0 : Int) ≤ (ns.sum : Int) := by positivity
    have hn : (0 : Int) ≤ (n : Int) := by positivity
    have htot : c.val + ((n :: ns).sum : Int) = c.val + (n : Int) + (ns.sum : Int) := by
      push_cast [List.sum_cons]
      ring
    rw [htot] at hno
    have hval : (c.increment (n : Int)).1.val = c.val + (n : Int) := by
      rw [Counter.increment_val]
      exact c_int_wrap_eq_self _ (by omega) (by omega)
    rw [counter_run, ih (c.increment (n : Int)).1 (by rw [hval]; omega) (by rw [hval]; omega),
      hval, htot]

theorem counter_run_mono_no_wrap (c : Counter) (ns : List Nat)
    (hc0 : 0 ≤ c.val) (hno : c.val + (ns.sum : Int) < c_int32_bound) :
    c.val ≤ (counter_run c ns).val := by
  rw [counter_run_val_no_wrap ns c hc0 hno]
  omega

/-! ## Helper lemmas about the consumers and the per-item operations -/

theorem delete_consumer_block_go_all_ok (op : String → Option PyExc) :
    ∀ (block : List String) (k : Nat), (∀ x ∈ block, op x = none) →
      delete_consumer_block_go op block k = ⟨k + block.length, 1, false⟩ := by
  intro block
  induction block with
  | nil => intro k _; simp [delete_consumer_block_go]
  | cons x xs ih =>
    intro k h
    have hx : op x = none := h x (by simp)
    simp only [delete_consumer_block_go, hx]
    rw [ih (k + 1) (fun y hy => h y (List.mem_cons_of_mem _ hy))]
    have : k + 1 + xs.length = k + (x :: xs).length := by simp; omega
    rw [this]

theorem tier_consumer_block_go_all_ok (op : String → Option PyExc) :
    ∀ (block : List String) (k : Nat), (∀ x ∈ block, op x = none) →
      tier_consumer_block_go op block k = ⟨k + block.length, 1, false⟩ := by
  intro block
  induction block with
  | nil => intro k _; simp [tier_consumer_block_go]
  | cons x xs ih =>
    intro k h
    have hx : op x = none := h x (by simp)
    simp only [tier_consumer_block_go, hx]
    rw [ih (k + 1) (fun y hy => h y (List.mem_cons_of_mem _ hy))]
    have : k + 1 + xs.length = k + (x :: xs).length := by simp; omega
    rw [this]

theorem delete_blob_body_raised (cfg : DelConfig) (f : RemoteFaults) (b : RemoteBlob)
    (p : String) (logs0 : List String) (reads0 : Nat) :
    (delete_blob_body cfg f b p logs0 reads0).raised = none := by
  unfold delete_blob_body
  repeat' split
  all_goals rfl

theorem delete_blob_raised_none (cfg : DelConfig) (f : RemoteFaults) (b : RemoteBlob)
    (p : String) (hv : cfg.verify_existence = false) :
    (delete_blob cfg f b p).raised = none := by
  simp [delete_blob, hv, delete_blob_body_raised]

theorem set_access_tier_do_set_raised (cfg : TierConfig) (f : RemoteFaults) (b : RemoteBlob)
    (p t : String) (ap : Option BlobProps) (logs0 : List String) (reads0 : Nat) :
    (set_access_tier_do_set cfg f b p t ap logs0 reads0).raised = none := by
  unfold set_access_tier_do_set
  split <;> rfl

theorem set_access_tier_execute_raised (cfg : TierConfig) (f : RemoteFaults) (b : RemoteBlob)
    (p t : String) (logs0 : List String) (reads0 : Nat) :
    (set_access_tier_execute cfg f b p t logs0 reads0).raised = none := by
  unfold set_access_tier_execute
  repeat' split
  all_goals first | rfl | apply set_access_tier_do_set_raised

theorem set_access_tier_gate_raised (cfg : TierConfig) (f : RemoteFaults) (b : RemoteBlob)
    (p t : String) (logs0 : List String) (reads0 : Nat) :
    (set_access_tier_gate cfg f b p t logs0 reads0).raised = none := by
  unfold set_access_tier_gate
  split
  · apply set_access_tier_execute_raised
  · rfl

theorem set_access_tier_verify_raised (cfg : TierConfig) (f : RemoteFaults) (b : RemoteBlob)
    (p t : String) (logs0 : List String) (reads0 : Nat) :
    (set_access_tier_verify cfg f b p t logs0 reads0).raised = none := by
  unfold set_access_tier_verify
  repeat' split
  all_goals first | rfl | apply set_access_tier_gate_raised

theorem set_access_tier_raised_none (cfg : TierConfig) (f : RemoteFaults) (b : RemoteBlob)
    (p t : String) (ht : t ∈ valid_tiers) (hv : cfg.verify_existence = false) :
    (set_access_tier cfg f b p t).raised = none := by
  rw [set_access_tier, if_pos ht, hv]
  simp only [Bool.false_eq_true, if_false]
  apply set_access_tier_verify_raised

theorem set_access_tier_unfold (cfg : TierConfig) (f : RemoteFaults) (b : RemoteBlob)
    (p t : String) (ht : t ∈ valid_tiers) (hget : f.getPropsExc = none)
    (hpres : b.present = true) :
    set_access_tier cfg f b p t =
      set_access_tier_verify cfg f b p t [] (if cfg.verify_existence then 1 else 0) := by
  have hbe : blob_exists f b = .ok true := by
    simp [blob_exists, get_blob_properties, hget, hpres]
  by_cases hv : cfg.verify_existence
  · simp [set_access_tier, ht, hv, hbe]
  · simp [set_access_tier, ht, hv]

theorem set_access_tier_verify_skip (cfg : TierConfig) (f : RemoteFaults) (b : RemoteBlob)
    (p t : String) (logs0 : List String) (reads0 : Nat)
    (hvt : cfg.verify_access_tier = true) (hforce : cfg.force_tier_on_inferred_blobs = false)
    (hget : f.getPropsExc = none) (hpres : b.present = true)
    (htier : b.props.blob_tier = some t) (hvalid : t ∈ valid_tiers) :
    set_access_tier_verify cfg f b p t logs0 reads0 =
      ⟨b, logs0 ++ [skip_line p t], reads0 + 1, 0, none⟩ := by
  have hgp : get_blob_properties f b = .ok b.props := by
    simp [get_blob_properties, hget, hpres]
  simp [set_access_tier_verify, hvt, hgp, htier, hvalid, hforce]

theorem set_access_tier_do_set_ok (cfg : TierConfig) (f : RemoteFaults) (b : RemoteBlob)
    (p t : String) (ap : Option BlobProps) (logs0 : List String) (reads0 : Nat)
    (hset : f.setTierExc = none) (hpres : b.present = true) :
    (set_access_tier_do_set cfg f b p t ap logs0 reads0).state =
        ⟨true, ⟨some t, false, b.props.archive_status⟩⟩ ∧
      (set_access_tier_do_set cfg f b p t ap logs0 reads0).mutations = 1 ∧
      (set_access_tier_do_set cfg f b p t ap logs0 reads0).raised = none := by
  have hs : set_standard_blob_tier_blobs f b t =
      .ok ⟨true, ⟨some t, false, b.props.archive_status⟩⟩ := by
    simp [set_standard_blob_tier_blobs, hset, hpres]
  simp [set_access_tier_do_set, hs]

theorem set_access_tier_execute_ok (cfg : TierConfig) (f : RemoteFaults) (b : RemoteBlob)
    (p t : String) (logs0 : List String) (reads0 : Nat)
    (hget : f.getPropsExc = none) (hset : f.setTierExc = none) (hpres : b.present = true) :
    (set_access_tier_execute cfg f b p t logs0 reads0).state =
        ⟨true, ⟨some t, false, b.props.archive_status⟩⟩ ∧
      (set_access_tier_execute cfg f b p t logs0 reads0).mutations = 1 ∧
      (set_access_tier_execute cfg f b p t logs0 reads0).raised = none := by
  have hgp : get_blob_properties f b = .ok b.props := by
    simp [get_blob_properties, hget, hpres]
  rw [set_access_tier_execute]
  by_cases ha : t = "Archive"
  · rw [if_pos ha]
    simp only [hgp]
    exact set_access_tier_do_set_ok cfg f b p t (some b.props) logs0 (reads0 + 1) hset hpres
  · rw [if_neg ha]
    exact set_access_tier_do_set_ok cfg f b p t none logs0 reads0 hset hpres

theorem set_access_tier_verify_set (cfg : TierConfig) (f : RemoteFaults) (b : RemoteBlob)
    (p t t0 : String) (logs0 : List String) (reads0 : Nat)
    (hvt : cfg.verify_access_tier = true) (hexec : cfg.execute_changes = true)
    (hget : f.getPropsExc = none) (hset : f.setTierExc = none) (hpres : b.present = true)
    (htier0 : b.props.blob_tier = some t0) (hvalid0 : t0 ∈ valid_tiers) (hne : t0 ≠ t) :
    (set_access_tier_verify cfg f b p t logs0 reads0).state =
        ⟨true, ⟨some t, false, b.props.archive_status⟩⟩ ∧
      (set_access_tier_verify cfg f b p t logs0 reads0).mutations = 1 ∧
      (set_access_tier_verify cfg f b p t logs0 reads0).raised = none := by
  have hgp : get_blob_properties f b = .ok b.props := by
    simp [get_blob_properties, hget, hpres]
  rw [set_access_tier_verify, if_pos (by rw [hvt])]
  simp only [hgp, htier0]
  rw [if_pos hvalid0, if_neg hne]
  rw [set_access_tier_gate, if_pos (by rw [hexec])]
  exact set_access_tier_execute_ok cfg f b p t logs0 (reads0 + 1) hget hset hpres

theorem set_access_tier_gate_noexec (cfg : TierConfig) (f : RemoteFaults) (b : RemoteBlob)
    (p t : String) (logs0 : List String) (reads0 : Nat)
    (h : cfg.execute_changes = false) :
    (set_access_tier_gate cfg f b p t logs0 reads0).state = b ∧
      (set_access_tier_gate cfg f b p t logs0 reads0).mutations = 0 := by
  simp [set_access_tier_gate, h]

theorem set_access_tier_verify_noexec (cfg : TierConfig) (f : RemoteFaults) (b : RemoteBlob)
    (p t : String) (logs0 : List String) (reads0 : Nat)
    (h : cfg.execute_changes = false) :
    (set_access_tier_verify cfg f b p t logs0 reads0).state = b ∧
      (set_access_tier_verify cfg f b p t logs0 reads0).mutations = 0 := by
  unfold set_access_tier_verify
  repeat' split
  all_goals first
    | exact set_access_tier_gate_noexec cfg f b p t _ _ h
    | simp

theorem set_access_tier_noexec (cfg : TierConfig) (f : RemoteFaults) (b : RemoteBlob)
    (p t : String) (h : cfg.execute_changes = false) :
    (set_access_tier cfg f b p t).state = b ∧
      (set_access_tier cfg f b p t).mutations = 0 := by
  unfold set_access_tier
  repeat' split
  all_goals first
    | exact set_access_tier_verify_noexec cfg f b p t _ _ h
    | simp

theorem delete_blob_body_noexec (cfg : DelConfig) (f : RemoteFaults) (b : RemoteBlob)
    (p : String) (logs0 : List String) (reads0 : Nat)
    (h : cfg.execute_deletions = false) :
    (delete_blob_body cfg f b p logs0 reads0).state = b ∧
      (delete_blob_body cfg f b p logs0 reads0).mutations = 0 := by
  simp [delete_blob_body, h]

theorem delete_blob_noexec (cfg : DelConfig) (f : RemoteFaults) (b : RemoteBlob)
    (p : String) (h : cfg.execute_deletions = false) :
    (delete_blob cfg f b p).state = b ∧
      (delete_blob cfg f b p).mutations = 0 := by
  unfold delete_blob
  repeat' split
  all_goals first
    | exact delete_blob_body_noexec cfg f b p _ _ h
    | simp

/-! ## Claim theorems -/

/-- C1 counterexample: with five items and block size 2 the producer queues
5 items in total, but the counter increments only at the two full blocks, so
its final value is 4 — the claim that the final value equals the total items
queued (including the final partial block) is false on this run. -/
theorem progress_counter_cex :
    ((producer_func ⟨0, -1, 2⟩ ["a", "b", "c", "d", "e"]).puts.map List.length).sum = 5 ∧
    (counter_run counter0 (producer_func ⟨0, -1, 2⟩ ["a", "b", "c", "d", "e"]).incs).val = 4 ∧
    (4 : Int) ≠ 5 := by decide

/-- C1 (amended): the shared counter is a 32-bit C int whose store silently
wraps; over any run of non-negative increments whose running total stays
below 2^31 it is monotonically non-decreasing, and after the producer
finishes — when the kept item count stays below 2^31 — its final value
equals the number of items queued in full blocks: the total items queued
minus the size of the final partial block, which is queued without an
increment. -/
theorem progress_counter_amended (lines : List String) (skip B : Nat) (hB : 0 < B)
    (c : Counter) (ns : List Nat)
    (hc0 : 0 ≤ c.val) (hns : c.val + (ns.sum : Int) < c_int32_bound)
    (hn : ((kept_after_skip skip lines).length : Int) < c_int32_bound) :
    c.val ≤ (counter_run c ns).val ∧
    ((producer_func ⟨skip, -1, B⟩ lines).puts.map List.length).sum =
      (kept_after_skip skip lines).length ∧
    (counter_run counter0 (producer_func ⟨skip, -1, B⟩ lines).incs).val =
      (((kept_after_skip skip lines).length - (kept_after_skip skip lines).length % B : Nat) :
        Int) := by
  refine ⟨counter_run_mono_no_wrap c ns hc0 hns, ?_, ?_⟩
  · rw [← producer_func_puts_join skip B lines]
    exact (List.length_flatten _).symm
  · rw [producer_func_incs skip B hB lines]
    have hle : (kept_after_skip skip lines).length / B * B ≤
        (kept_after_skip skip lines).length := Nat.div_mul_le_self _ _
    have hsum : (List.replicate ((kept_after_skip skip lines).length / B) B).sum =
        (kept_after_skip skip lines).length / B * B := by
      rw [List.sum_replicate, smul_eq_mul]
    have h2 : (kept_after_skip skip lines).length / B * B =
        (kept_after_skip skip lines).length - (kept_after_skip skip lines).length % B := by
      rw [Nat.mul_comm]
      exact Nat.eq_sub_of_add_eq (Nat.div_add_mod (kept_after_skip skip lines).length B)
    have hwrap : counter0.val +
        ((List.replicate ((kept_after_skip skip lines).length / B) B).sum : Int) <
          c_int32_bound := by
      have h0 : counter0.val = 0 := rfl
      rw [h0, hsum]
      omega
    rw [counter_run_val_no_wrap _ counter0 (by decide) hwrap, hsum, h2]
    simp [counter0]

/-- C1 amended witness at a concrete run: five items, block size 2, totals
far below the 32-bit overflow bound. -/
theorem progress_counter_amended_witness :
    0 < 2 ∧ (0 : Int) ≤ counter0.val ∧
    counter0.val + ((([2, 2] : List Nat).sum : Nat) : Int) < c_int32_bound ∧
    ((kept_after_skip 0 ["a", "b", "c", "d", "e"]).length : Int) < c_int32_bound ∧
    (counter0.val ≤ (counter_run counter0 [2, 2]).val ∧
     ((producer_func ⟨0, -1, 2⟩ ["a", "b", "c", "d", "e"]).puts.map List.length).sum = 5 ∧
     (counter_run counter0 (producer_func ⟨0, -1, 2⟩ ["a", "b", "c", "d", "e"]).incs).val = 4) := by
  refine ⟨by decide, by decide, by decide, by decide, ?_⟩
  have h := progress_counter_amended ["a", "b", "c", "d", "e"] 0 2 (by decide) counter0 [2, 2]
    (by decide) (by decide) (by decide)
  exact ⟨h.1, h.2.1.trans (by decide), h.2.2.trans (by decide)⟩

/-- C2 counterexample: file with lines blank, a, b and skip-count 1. The
skip applies to raw line indices before blank filtering, so both a and b are
dispatched (2 items), while non-blank lines minus skip-count is 1. -/
theorem dispatch_count_cex :
    ((producer_func ⟨1, -1, 500⟩ ["", "a", "b"]).puts.map
        (fun blk => (delete_consumer_block
          (fun p => (delete_blob ⟨false, true, false⟩ ⟨none, none, none⟩
            ⟨true, ⟨some "Hot", false, ""⟩⟩ p).raised) blk).items_processed)).sum = 2 ∧
    non_blank_count ["", "a", "b"] - 1 = 1 := by decide

/-- C2 (amended): with the debug cap disabled, the number of items dispatched
to the per-item operation equals the number of non-blank (after stripping)
lines among the lines whose index is at least the skip-count, for every block
size; this coincides with non-blank lines minus skip-count only when every
skipped line is non-blank. -/
theorem dispatch_count_amended (lines : List String) (skip B : Nat) (hB : 0 < B)
    (dcfg : DelConfig) (f : RemoteFaults) (bs : String → RemoteBlob)
    (hv : dcfg.verify_existence = false) :
    ((producer_func ⟨skip, -1, B⟩ lines).puts.map
        (fun blk => (delete_consumer_block
          (fun p => (delete_blob dcfg f (bs p) p).raised) blk).items_processed)).sum =
      (kept_after_skip skip lines).length := by
  have hblk : ∀ blk : List String,
      (delete_consumer_block (fun p => (delete_blob dcfg f (bs p) p).raised) blk).items_processed
        = blk.length := by
    intro blk
    rw [delete_consumer_block,
      delete_consumer_block_go_all_ok _ blk 0
        (fun x _ => delete_blob_raised_none dcfg f (bs x) x hv)]
    simp
  simp only [hblk]
  rw [← producer_func_puts_join skip B lines]
  exact (List.length_flatten _).symm

/-- C2 amended witness: three items, skip 0, block size 2; all 3 dispatched. -/
theorem dispatch_count_amended_witness :
    0 < 2 ∧ (⟨false, true, false⟩ : DelConfig).verify_existence = false ∧
    ((producer_func ⟨0, -1, 2⟩ ["a", "b", "c"]).puts.map
        (fun blk => (delete_consumer_block
          (fun p => (delete_blob ⟨false, true, false⟩ ⟨none, none, none⟩
            ⟨true, ⟨some "Hot", false, ""⟩⟩ p).raised) blk).items_processed)).sum = 3 := by
  refine ⟨by decide, rfl, ?_⟩
  have h := dispatch_count_amended ["a", "b", "c"] 0 2 (by decide) ⟨false, true, false⟩
    ⟨none, none, none⟩ (fun _ => ⟨true, ⟨some "Hot", false, ""⟩⟩) rfl
  exact h.trans (by decide)

/-- C3 counterexample: with the existence check enabled, a throttled error in
the existence-check property fetch propagates out of `delete_blob`; the
delete-blobs consumer runs its per-item loop outside any try, so the worker
dies before `q.task_done()`: zero mark-done calls for the dequeued block. -/
theorem task_done_cex :
    (delete_consumer_block
      (fun p => (delete_blob ⟨false, true, true⟩
        ⟨some (.httpError "throttled"), none, none⟩
        ⟨true, ⟨some "Hot", false, ""⟩⟩ p).raised) ["blob1"]).task_done_calls = 0 ∧
    (delete_consumer_block
      (fun p => (delete_blob ⟨false, true, true⟩
        ⟨some (.httpError "throttled"), none, none⟩
        ⟨true, ⟨some "Hot", false, ""⟩⟩ p).raised) ["blob1"]).crashed = true := by decide

/-- C3 (amended): provided no per-item call propagates an exception out of
the per-item function — as is the case whenever the existence check is
disabled, and regardless of how many mutating calls fail — both consumers
process every item of a dequeued block and call the mark-done operation
exactly once for it. -/
theorem task_done_once_amended (dcfg : DelConfig) (tcfg : TierConfig) (f : RemoteFaults)
    (bs : String → RemoteBlob) (block : List String) (t : String)
    (hd : dcfg.verify_existence = false) (ht : tcfg.verify_existence = false)
    (hvalid : t ∈ valid_tiers) :
    delete_consumer_block (fun p => (delete_blob dcfg f (bs p) p).raised) block =
      ⟨block.length, 1, false⟩ ∧
    tier_consumer_block (fun p => (set_access_tier tcfg f (bs p) p t).raised) block =
      ⟨block.length, 1, false⟩ := by
  constructor
  · rw [delete_consumer_block,
      delete_consumer_block_go_all_ok _ block 0
        (fun x _ => delete_blob_raised_none dcfg f (bs x) x hd)]
    simp
  · rw [tier_consumer_block,
      tier_consumer_block_go_all_ok _ block 0
        (fun x _ => set_access_tier_raised_none tcfg f (bs x) x t hvalid ht)]
    simp

/-- C3 amended witness: a two-item block whose delete calls both fail with an
injected service error still yields exactly one mark-done call. -/
theorem task_done_once_amended_witness :
    (⟨false, true, false⟩ : DelConfig).verify_existence = false ∧
    (⟨false, true, false, false, true⟩ : TierConfig).verify_existence = false ∧
    "Hot" ∈ valid_tiers ∧
    delete_consumer_block
      (fun p => (delete_blob ⟨false, true, false⟩ ⟨none, none, some (.httpError "boom")⟩
        ⟨true, ⟨some "Hot", false, ""⟩⟩ p).raised) ["x", "y"] = ⟨2, 1, false⟩ := by
  refine ⟨rfl, rfl, by decide, ?_⟩
  have h := task_done_once_amended ⟨false, true, false⟩ ⟨false, true, false, false, true⟩
    ⟨none, none, some (.httpError "boom")⟩ (fun _ => ⟨true, ⟨some "Hot", false, ""⟩⟩)
    ["x", "y"] "Hot" rfl rfl (by decide)
  exact h.1

/-- C4 counterexample: with the existence check enabled and verbose off, a
throttled exception raised by the existence-check property fetch is neither
caught by `delete_blob` (it propagates, aborting block and worker) nor
logged. -/
theorem per_item_exception_cex :
    (delete_blob ⟨false, true, true⟩ ⟨some (.httpError "throttled"), none, none⟩
      ⟨true, ⟨some "Hot", false, ""⟩⟩ "blob1").raised = some (.httpError "throttled") ∧
    (delete_blob ⟨false, true, true⟩ ⟨some (.httpError "throttled"), none, none⟩
      ⟨true, ⟨some "Hot", false, ""⟩⟩ "blob1").logs = [] := by decide

/-- C4 (amended): an exception raised by the mutating delete call itself is
always caught inside `delete_blob`, which returns normally; it is logged when
verbose is enabled; and the consumer then continues with the next item, the
whole block being processed with one mark-done call. Only the optional
existence check can let an exception escape. -/
theorem per_item_exception_amended (cfg : DelConfig) (f : RemoteFaults) (b : RemoteBlob)
    (p : String) (e : PyExc) (bs : String → RemoteBlob) (block : List String)
    (hv : cfg.verify_existence = false) :
    (delete_blob cfg f b p).raised = none ∧
    (cfg.verbose = true → cfg.execute_deletions = true → f.deleteExc = some e →
      (if py_in "BlobNotFound" (pyStr e) then p ++ " does not exist"
       else "Error deleting " ++ p ++ ": " ++ pyStr e) ∈ (delete_blob cfg f b p).logs) ∧
    delete_consumer_block (fun q => (delete_blob cfg f (bs q) q).raised) block =
      ⟨block.length, 1, false⟩ := by
  refine ⟨delete_blob_raised_none cfg f b p hv, ?_, ?_⟩
  · intro hverb hexec hdel
    have hsdk : sdk_delete_blob f b = .error e := by
      simp [sdk_delete_blob, hdel]
    simp [delete_blob, hv, delete_blob_body, hexec, hsdk, hverb]
    split_ifs <;> simp
  · rw [delete_consumer_block,
      delete_consumer_block_go_all_ok _ block 0
        (fun x _ => delete_blob_raised_none cfg f (bs x) x hv)]
    simp

/-- C4 amended witness: a verbose run whose delete call fails with a
throttled error — caught, logged, and the one-item block completes with one
mark-done call. -/
theorem per_item_exception_amended_witness :
    (⟨true, true, false⟩ : DelConfig).verify_existence = false ∧
    ((delete_blob ⟨true, true, false⟩ ⟨none, none, some (.httpError "throttled")⟩
        ⟨true, ⟨some "Hot", false, ""⟩⟩ "b1").raised = none ∧
     ((⟨true, true, false⟩ : DelConfig).verbose = true →
      (⟨true, true, false⟩ : DelConfig).execute_deletions = true →
      (⟨none, none, some (.httpError "throttled")⟩ : RemoteFaults).deleteExc =
        some (.httpError "throttled") →
      (if py_in "BlobNotFound" (pyStr (.httpError "throttled")) then "b1" ++ " does not exist"
       else "Error deleting " ++ "b1" ++ ": " ++ pyStr (.httpError "throttled")) ∈
        (delete_blob ⟨true, true, false⟩ ⟨none, none, some (.httpError "throttled")⟩
          ⟨true, ⟨some "Hot", false, ""⟩⟩ "b1").logs) ∧
     delete_consumer_block
        (fun q => (delete_blob ⟨true, true, false⟩ ⟨none, none, some (.httpError "throttled")⟩
          ⟨true, ⟨some "Hot", false, ""⟩⟩ q).raised) ["b1"] = ⟨1, 1, false⟩) :=
  ⟨rfl, per_item_exception_amended ⟨true, true, false⟩
    ⟨none, none, some (.httpError "throttled")⟩ ⟨true, ⟨some "Hot", false, ""⟩⟩ "b1"
    (.httpError "throttled") (fun _ => ⟨true, ⟨some "Hot", false, ""⟩⟩) ["b1"] rfl⟩

set_option maxRecDepth 4000 in
/-- C5 counterexample: calling the delete-blobs thread entry point on a
missing input file still creates the producer and all 100 consumer workers;
the file-not-found only occurs inside the producer thread afterwards. -/
theorem missing_file_workers_cex :
    (parallel_delete_blobs_threads false n_threads).events.count RunEv.workerCreated = 100 ∧
    (parallel_delete_blobs_threads false n_threads).producer_file_error = true := by decide

/-- C5 (amended): for a non-existent input file the tier-change entry point
aborts on its file assertion before creating any worker, while the
delete-blobs entry points create the producer and every consumer worker
regardless, the file-not-found arising only inside the producer thread (the
delete script checks the file only in its command-line driver). -/
theorem missing_file_abort_amended (u : Bool) (n : Nat) :
    parallel_set_access_tier false u n = [RunEv.abortedFileNotFound] ∧
    RunEv.workerCreated ∉ parallel_set_access_tier false u n ∧
    (parallel_delete_blobs false u n).events.count RunEv.workerCreated = n ∧
    (parallel_delete_blobs false u n).producer_file_error = true := by
  refine ⟨?_, ?_, ?_, ?_⟩
  · simp [parallel_set_access_tier]
  · simp [parallel_set_access_tier]
  · cases u <;>
      simp [parallel_delete_blobs, parallel_delete_blobs_threads,
        parallel_delete_blobs_processes, List.count_cons, List.count_replicate]
  · cases u <;>
      simp [parallel_delete_blobs, parallel_delete_blobs_threads,
        parallel_delete_blobs_processes]

/-- C6: with tier verification enabled, no force-override, changes executed,
a healthy remote and a present blob at a recognised tier, invoking
`set_access_tier` twice in succession with the same valid target tier leaves
the remote state exactly as after the first invocation, and the second
invocation issues no mutating call and prints the skip (already at desired
tier) line. -/
theorem set_access_tier_idempotent (cfg : TierConfig) (f : RemoteFaults) (b : RemoteBlob)
    (p t t0 : String)
    (hvt : cfg.verify_access_tier = true) (hforce : cfg.force_tier_on_inferred_blobs = false)
    (hexec : cfg.execute_changes = true)
    (hget : f.getPropsExc = none) (hset : f.setTierExc = none)
    (hpres : b.present = true) (htier0 : b.props.blob_tier = some t0)
    (hvalid0 : t0 ∈ valid_tiers) (hvalid : t ∈ valid_tiers) :
    (set_access_tier cfg f (set_access_tier cfg f b p t).state p t).state =
      (set_access_tier cfg f b p t).state ∧
    (set_access_tier cfg f (set_access_tier cfg f b p t).state p t).mutations = 0 ∧
    skip_line p t ∈ (set_access_tier cfg f (set_access_tier cfg f b p t).state p t).logs := by
  by_cases h0 : t0 = t
  · subst h0
    have hs1 : (set_access_tier cfg f b p t0).state = b := by
      rw [set_access_tier_unfold cfg f b p t0 hvalid0 hget hpres,
        set_access_tier_verify_skip cfg f b p t0 [] _ hvt hforce hget hpres htier0 hvalid0]
    rw [hs1]
    rw [set_access_tier_unfold cfg f b p t0 hvalid0 hget hpres,
      set_access_tier_verify_skip cfg f b p t0 [] _ hvt hforce hget hpres htier0 hvalid0]
    simp
  · have hv1 := set_access_tier_verify_set cfg f b p t t0 []
      (if cfg.verify_existence then 1 else 0) hvt hexec hget hset hpres htier0 hvalid0 h0
    have hs1 : (set_access_tier cfg f b p t).state =
        ⟨true, ⟨some t, false, b.props.archive_status⟩⟩ := by
      rw [set_access_tier_unfold cfg f b p t hvalid hget hpres]
      exact hv1.1
    rw [hs1]
    rw [set_access_tier_unfold cfg f ⟨true, ⟨some t, false, b.props.archive_status⟩⟩ p t
        hvalid hget rfl,
      set_access_tier_verify_skip cfg f ⟨true, ⟨some t, false, b.props.archive_status⟩⟩ p t
        [] _ hvt hforce hget rfl rfl hvalid]
    simp

/-- C6 witness: a blob at Hot set twice to Cool. -/
theorem set_access_tier_idempotent_witness :
    ((⟨false, true, false, false, true⟩ : TierConfig).verify_access_tier = true ∧
     (⟨false, true, false, false, true⟩ : TierConfig).force_tier_on_inferred_blobs = false ∧
     (⟨false, true, false, false, true⟩ : TierConfig).execute_changes = true ∧
     (⟨none, none, none⟩ : RemoteFaults).getPropsExc = none ∧
     (⟨none, none, none⟩ : RemoteFaults).setTierExc = none ∧
     (⟨true, ⟨some "Hot", false, ""⟩⟩ : RemoteBlob).present = true ∧
     (⟨true, ⟨some "Hot", false, ""⟩⟩ : RemoteBlob).props.blob_tier = some "Hot" ∧
     "Hot" ∈ valid_tiers ∧ "Cool" ∈ valid_tiers) ∧
    ((set_access_tier ⟨false, true, false, false, true⟩ ⟨none, none, none⟩
        (set_access_tier ⟨false, true, false, false, true⟩ ⟨none, none, none⟩
          ⟨true, ⟨some "Hot", false, ""⟩⟩ "p" "Cool").state "p" "Cool").state =
      (set_access_tier ⟨false, true, false, false, true⟩ ⟨none, none, none⟩
        ⟨true, ⟨some "Hot", false, ""⟩⟩ "p" "Cool").state ∧
     (set_access_tier ⟨false, true, false, false, true⟩ ⟨none, none, none⟩
        (set_access_tier ⟨false, true, false, false, true⟩ ⟨none, none, none⟩
          ⟨true, ⟨some "Hot", false, ""⟩⟩ "p" "Cool").state "p" "Cool").mutations = 0 ∧
     skip_line "p" "Cool" ∈
       (set_access_tier ⟨false, true, false, false, true⟩ ⟨none, none, none⟩
        (set_access_tier ⟨false, true, false, false, true⟩ ⟨none, none, none⟩
          ⟨true, ⟨some "Hot", false, ""⟩⟩ "p" "Cool").state "p" "Cool").logs) :=
  ⟨⟨rfl, rfl, rfl, rfl, rfl, rfl, rfl, by decide, by decide⟩,
   set_access_tier_idempotent ⟨false, true, false, false, true⟩ ⟨none, none, none⟩
     ⟨true, ⟨some "Hot", false, ""⟩⟩ "p" "Cool" "Hot" rfl rfl rfl rfl rfl rfl rfl
     (by decide) (by decide)⟩

/-- C7: with tier verification enabled and no force-override, on a healthy
remote whose blob is already at the desired valid tier, `set_access_tier` is
a no-op on remote state: it prints exactly the skip line, issues no mutating
call and returns normally. -/
theorem set_access_tier_skip_noop (cfg : TierConfig) (f : RemoteFaults) (b : RemoteBlob)
    (p t : String)
    (hvt : cfg.verify_access_tier = true) (hforce : cfg.force_tier_on_inferred_blobs = false)
    (hget : f.getPropsExc = none) (hpres : b.present = true)
    (htier : b.props.blob_tier = some t) (hvalid : t ∈ valid_tiers) :
    (set_access_tier cfg f b p t).state = b ∧
    (set_access_tier cfg f b p t).mutations = 0 ∧
    (set_access_tier cfg f b p t).logs = [skip_line p t] ∧
    (set_access_tier cfg f b p t).raised = none := by
  rw [set_access_tier_unfold cfg f b p t hvalid hget hpres,
    set_access_tier_verify_skip cfg f b p t [] _ hvt hforce hget hpres htier hvalid]
  simp

/-- C7 witness: a blob already at Archive, target Archive. -/
theorem set_access_tier_skip_noop_witness :
    ((⟨false, true, false, false, true⟩ : TierConfig).verify_access_tier = true ∧
     (⟨false, true, false, false, true⟩ : TierConfig).force_tier_on_inferred_blobs = false ∧
     (⟨none, none, none⟩ : RemoteFaults).getPropsExc = none ∧
     (⟨true, ⟨some "Archive", false, ""⟩⟩ : RemoteBlob).present = true ∧
     (⟨true, ⟨some "Archive", false, ""⟩⟩ : RemoteBlob).props.blob_tier = some "Archive" ∧
     "Archive" ∈ valid_tiers) ∧
    ((set_access_tier ⟨false, true, false, false, true⟩ ⟨none, none, none⟩
        ⟨true, ⟨some "Archive", false, ""⟩⟩ "q" "Archive").state =
      ⟨true, ⟨some "Archive", false, ""⟩⟩ ∧
     (set_access_tier ⟨false, true, false, false, true⟩ ⟨none, none, none⟩
        ⟨true, ⟨some "Archive", false, ""⟩⟩ "q" "Archive").mutations = 0 ∧
     (set_access_tier ⟨false, true, false, false, true⟩ ⟨none, none, none⟩
        ⟨true, ⟨some "Archive", false, ""⟩⟩ "q" "Archive").logs = [skip_line "q" "Archive"] ∧
     (set_access_tier ⟨false, true, false, false, true⟩ ⟨none, none, none⟩
        ⟨true, ⟨some "Archive", false, ""⟩⟩ "q" "Archive").raised = none) :=
  ⟨⟨rfl, rfl, rfl, rfl, rfl, by decide⟩,
   set_access_tier_skip_noop ⟨false, true, false, false, true⟩ ⟨none, none, none⟩
     ⟨true, ⟨some "Archive", false, ""⟩⟩ "q" "Archive" rfl rfl rfl rfl rfl (by decide)⟩

/-- C8: for every input and every positive block size B, the producer queues
exactly floor(n/B) full blocks of size B followed by one final block of size
n mod B (possibly empty), n being the number of kept items; the concatenation
of the queued blocks is exactly the kept items in input order, so every item
appears in exactly one block. -/
theorem producer_block_shape (lines : List String) (B : Nat) (hB : 0 < B) :
    (producer_func ⟨0, -1, B⟩ lines).puts.map List.length =
      List.replicate ((kept_after_skip 0 lines).length / B) B ++
        [(kept_after_skip 0 lines).length % B] ∧
    (producer_func ⟨0, -1, B⟩ lines).puts.flatten = kept_after_skip 0 lines :=
  ⟨producer_func_map_length 0 B hB lines, producer_func_puts_join 0 B lines⟩

/-- C8 witness: five items with block size 2 yield blocks of sizes [2, 2, 1]
holding the items in order. -/
theorem producer_block_shape_witness :
    0 < 2 ∧
    ((producer_func ⟨0, -1, 2⟩ ["a", "b", "c", "d", "e"]).puts.map List.length = [2, 2, 1] ∧
     (producer_func ⟨0, -1, 2⟩ ["a", "b", "c", "d", "e"]).puts.flatten =
       ["a", "b", "c", "d", "e"]) := by
  refine ⟨by decide, ?_, ?_⟩
  · exact (producer_block_shape ["a", "b", "c", "d", "e"] 2 (by decide)).1.trans (by decide)
  · exact (producer_block_shape ["a", "b", "c", "d", "e"] 2 (by decide)).2.trans (by decide)

/-- C9: for every worker count w ≥ 1, every reachable occupancy of the
bounded queue created with capacity `max_queue_size w` holds at most w * 4
blocks — the back-pressure invariant. -/
theorem queue_depth_bounded (w n : Nat) (hw : 1 ≤ w)
    (h : QueueReachable (max_queue_size w) n) : n ≤ w * 4 := by
  induction h with
  | init => omega
  | put _ hlt _ => simp only [max_queue_size] at hlt; omega
  | get _ _ ih => omega

/-- C9 witness: one worker, one block in the queue. -/
theorem queue_depth_bounded_witness : 1 ≤ 1 ∧ (1 : Nat) ≤ 1 * 4 :=
  ⟨by decide, queue_depth_bounded 1 1 (by decide)
    (QueueReachable.put QueueReachable.init (by decide))⟩

/-- C10: with the execute flag off, the per-item operations issue no mutating
remote call and leave the remote blob state unchanged — only read-only
property fetches remain — for every configuration, fault pattern and blob. -/
theorem dry_run_no_mutation (tcfg : TierConfig) (dcfg : DelConfig) (f : RemoteFaults)
    (b : RemoteBlob) (p t : String)
    (h1 : tcfg.execute_changes = false) (h2 : dcfg.execute_deletions = false) :
    (set_access_tier tcfg f b p t).state = b ∧
    (set_access_tier tcfg f b p t).mutations = 0 ∧
    (delete_blob dcfg f b p).state = b ∧
    (delete_blob dcfg f b p).mutations = 0 := by
  have hs := set_access_tier_noexec tcfg f b p t h1
  have hd := delete_blob_noexec dcfg f b p h2
  exact ⟨hs.1, hs.2, hd.1, hd.2⟩

/-- C10 witness: dry-run configurations on a present blob. -/
theorem dry_run_no_mutation_witness :
    (⟨true, false, false, true, true⟩ : TierConfig).execute_changes = false ∧
    (⟨true, false, true⟩ : DelConfig).execute_deletions = false ∧
    ((set_access_tier ⟨true, false, false, true, true⟩ ⟨none, none, none⟩
        ⟨true, ⟨some "Hot", false, ""⟩⟩ "p" "Cool").state = ⟨true, ⟨some "Hot", false, ""⟩⟩ ∧
     (set_access_tier ⟨true, false, false, true, true⟩ ⟨none, none, none⟩
        ⟨true, ⟨some "Hot", false, ""⟩⟩ "p" "Cool").mutations = 0 ∧
     (delete_blob ⟨true, false, true⟩ ⟨none, none, none⟩
        ⟨true, ⟨some "Hot", false, ""⟩⟩ "p").state = ⟨true, ⟨some "Hot", false, ""⟩⟩ ∧
     (delete_blob ⟨true, false, true⟩ ⟨none, none, none⟩
        ⟨true, ⟨some "Hot", false, ""⟩⟩ "p").mutations = 0) :=
  ⟨rfl, rfl, dry_run_no_mutation ⟨true, false, false, true, true⟩ ⟨true, false, true⟩
    ⟨none, none, none⟩ ⟨true, ⟨some "Hot", false, ""⟩⟩ "p" "Cool" rfl rfl⟩
